import Mathlib

/-!
Shallow embedding of `src/main.c` of the Infineon PSoC6 CAN-FD example.

The program is a single embedded node: a button interrupt sets a shared
flag, the main loop polls it and transmits one CAN-FD frame per observed
press, and a receive callback decodes inbound frames (LED toggle + log).
Side effects (printf lines, LED toggles, the shared-flag writes, transmit
submissions, the assert in the error handler) are modelled as an ordered
event trace emitted by each routine.
-/

namespace CanfdNode

/-- Macro `CANFD_NODE_1` in main.c. -/
def CANFD_NODE_1 : Nat := 1

/-- Macro `CANFD_NODE_2` in main.c. -/
def CANFD_NODE_2 : Nat := 2

/-- Macro `USE_CANFD_NODE` in main.c: the message identifier used by this node. -/
def USE_CANFD_NODE : Nat := CANFD_NODE_1

/-- Macro `CANFD_HW_CHANNEL` in main.c. -/
def CANFD_HW_CHANNEL : Nat := 0

/-- Macro `CANFD_BUFFER_INDEX` in main.c. -/
def CANFD_BUFFER_INDEX : Nat := 0

/-- Macro `CANFD_DLC` in main.c: maximum incoming data length supported,
also the size of the local `canfd_data_buffer` array. -/
def CANFD_DLC : Nat := 8

/-- Vendor constant `CY_RSLT_SUCCESS` (value 0). -/
def CY_RSLT_SUCCESS : Nat := 0

/-- Vendor constant `CY_CANFD_SUCCESS` (value 0, same encoding as `CY_RSLT_SUCCESS`). -/
def CY_CANFD_SUCCESS : Nat := 0

/-- Vendor constant `CY_CANFD_RTR_DATA_FRAME` (value 0): rtr field value
marking a data frame. -/
def CY_CANFD_RTR_DATA_FRAME : Nat := 0

/-- Vendor constant `CY_CANFD_RTR_REMOTE_FRAME` (value 1). -/
def CY_CANFD_RTR_REMOTE_FRAME : Nat := 1

/-- Observable events emitted by the routines of main.c, in program order:
writes of the shared `gpio_intr_flag`, startup banner printf lines, the
transmit submission (carrying the template identifier, channel and buffer
index actually passed to `Cy_CANFD_UpdateAndTransmitMsgBuffer`), the two
transmit-outcome printf lines, the LED toggle, the receive printf lines,
the `memcpy` into the local 8-byte buffer (carrying the byte count), and
the `CY_ASSERT(0)` halt inside `handle_error`. -/
inductive Ev where
  | writeFlag (b : Bool)
  | logStartup (node : Nat)
  | transmitCall (id channel bufIdx : Nat)
  | logSent (id : Nat)
  | logSendFailed (id : Nat)
  | toggleLED
  | logRxHeader (dlc id : Nat)
  | copyToLocal (n : Nat)
  | logRxByte (v : Nat)
  | haltCall
  deriving DecidableEq, Repr

/-- Embedding of `handle_error` (main.c lines 309-315): if `status` differs
from `CY_RSLT_SUCCESS` it executes `CY_ASSERT(0)` (the halt event);
otherwise it returns having done nothing. -/
def handle_error (status : Nat) : List Ev :=
  if status ≠ CY_RSLT_SUCCESS then [Ev.haltCall] else []

/-- The `r0_f` register fields of `cy_stc_canfd_rx_buffer_t` used by the
callback: message identifier and remote-transmission-request flag. -/
structure RxR0 where
  id : Nat
  rtr : Nat
  deriving DecidableEq, Repr

/-- The `r1_f` register field of `cy_stc_canfd_rx_buffer_t` used by the
callback: the data length code. -/
structure RxR1 where
  dlc : Nat
  deriving DecidableEq, Repr

/-- The inbound frame record `cy_stc_canfd_rx_buffer_t` as used by
`canfd_rx_callback`: the register views `r0_f`, `r1_f` and the hardware
data area, modelled as the byte at each offset. -/
structure RxBuffer where
  r0_f : RxR0
  r1_f : RxR1
  data_area_f : Nat → Nat

/-- Embedding of C `memcpy(dst, src, n)` over byte-indexed buffers: offsets
below `n` take the source byte, the rest keep the destination byte. -/
def memcpy (dst src : Nat → Nat) (n : Nat) : Nat → Nat :=
  fun i => if i < n then src i else dst i

/-- Embedding of `canfd_rx_callback` (main.c lines 254-291). `stack` is the
arbitrary initial content of the uninitialized local `canfd_data_buffer`.
On a valid data frame it toggles the LED, logs the header (dlc, id),
copies `canfd_dlc` bytes of the data area into the local buffer, and logs
each of the first `canfd_dlc` local-buffer bytes in order; otherwise it
does nothing. -/
def canfd_rx_callback (msg_valid : Bool) (msg_buf_fifo_num : Nat)
    (canfd_rx_buf : RxBuffer) (stack : Nat → Nat) : List Ev :=
  if true = msg_valid then
    if CY_CANFD_RTR_DATA_FRAME = canfd_rx_buf.r0_f.rtr then
      let canfd_dlc := canfd_rx_buf.r1_f.dlc
      let canfd_id := canfd_rx_buf.r0_f.id
      let canfd_data_buffer := memcpy stack canfd_rx_buf.data_area_f canfd_dlc
      Ev.toggleLED ::
        Ev.logRxHeader canfd_dlc canfd_id ::
          Ev.copyToLocal canfd_dlc ::
            (List.range canfd_dlc).map fun msg_idx => Ev.logRxByte (canfd_data_buffer msg_idx)
    else []
  else []

/-- True when every `memcpy` into the local `canfd_data_buffer` recorded in
the trace copies at most `CANFD_DLC` bytes, i.e. stays inside the 8-byte
array. -/
def copyWithinBounds (t : List Ev) : Bool :=
  t.all fun e =>
    match e with
    | Ev.copyToLocal n => Nat.ble n CANFD_DLC
    | _ => true

/-- Embedding of `gpio_interrupt_handler` (main.c lines 221-224): it
unconditionally executes `gpio_intr_flag = true;` and nothing else. -/
def gpio_interrupt_handler (handler_arg : Unit) (event : Nat) : List Ev :=
  [Ev.writeFlag true]

/-- Modelled from the spec: `Cy_CANFD_IrqHandler` is the external
controller driver's interrupt-dispatch routine (not part of this
repository); per the spec it identifies the interrupt cause and invokes
the registered receive callback, `canfd_rx_callback`, when a frame has
arrived, and performs no flag access of its own. `arrived` is the
(validity, fifo number, record) triple of a received frame, if any. -/
def Cy_CANFD_IrqHandler (arrived : Option (Bool × Nat × RxBuffer))
    (stack : Nat → Nat) : List Ev :=
  match arrived with
  | some (v, n, buf) => canfd_rx_callback v n buf stack
  | none => []

/-- Embedding of `isr_canfd` (main.c lines 236-240): it just forwards to
`Cy_CANFD_IrqHandler` with the current channel number and context. -/
def isr_canfd (arrived : Option (Bool × Nat × RxBuffer))
    (stack : Nat → Nat) : List Ev :=
  Cy_CANFD_IrqHandler arrived stack

/-- The outbound frame template `CANFD_txBuffer_0` / its
`CANFD_T0RegisterBuffer_0` register view: only the identifier slot is
touched by main.c. -/
structure TxTemplate where
  id : Nat
  deriving DecidableEq, Repr

/-- Embedding of one iteration of the `for(;;)` dispatch loop (main.c
lines 184-207), given the value of `gpio_intr_flag` read by the `if` and
the status the controller returns for the transmit call. When the flag
reads true: submit the template to `CANFD_BUFFER_INDEX` on
`CANFD_HW_CHANNEL`, log `Sent` or `SendFailed` by the status, then write
`gpio_intr_flag = false`. Returns the template, the flag value after the
iteration, and the trace. -/
def loop_iteration (tmpl : TxTemplate) (gpio_intr_flag : Bool)
    (tx_status : Nat) : TxTemplate × Bool × List Ev :=
  if true = gpio_intr_flag then
    let status := tx_status
    let outcome :=
      if CY_CANFD_SUCCESS = status then Ev.logSent USE_CANFD_NODE
      else Ev.logSendFailed USE_CANFD_NODE
    (tmpl, false,
      [Ev.transmitCall tmpl.id CANFD_HW_CHANNEL CANFD_BUFFER_INDEX,
       outcome, Ev.writeFlag false])
  else (tmpl, gpio_intr_flag, [])

/-- Semantics of the `writeFlag` events of a trace on the shared
`gpio_intr_flag`: the flag ends at the last written value, other events
leave it alone. -/
def applyFlagWrites : Bool → List Ev → Bool
  | flag, [] => flag
  | _, Ev.writeFlag b :: rest => applyFlagWrites b rest
  | flag, _ :: rest => applyFlagWrites flag rest

/-- Environment of one dispatch-loop iteration: whether the button ISR
fired just before the loop read the flag, and the status the controller
returns if a transmit is submitted. -/
structure IterIn where
  isr_fired : Bool
  tx_status : Nat
  deriving DecidableEq, Repr

/-- Runs the dispatch loop over a finite prefix of iterations: before each
iteration the button ISR may fire (its trace's flag writes are applied to
the shared flag), then the loop body runs. Returns the final template,
final flag, and the concatenated trace. -/
def loop_run : TxTemplate → Bool → List IterIn → TxTemplate × Bool × List Ev
  | tmpl, flag, [] => (tmpl, flag, [])
  | tmpl, flag, inp :: rest =>
    let isrTrace := if inp.isr_fired then gpio_interrupt_handler () 0 else []
    let flag1 := applyFlagWrites flag isrTrace
    let step := loop_iteration tmpl flag1 inp.tx_status
    let next := loop_run step.1 step.2.1 rest
    (next.1, next.2.1, isrTrace ++ step.2.2 ++ next.2.2)

/-- The statuses returned by the checked initialization steps of `main`
(main.c lines 131-179), in source order, plus the status of
`Cy_SysInt_Init` whose return value the source discards with a `(void)`
cast (line 149). -/
structure InitEnv where
  cybsp_result : Nat
  retarget_result : Nat
  sysint_result : Nat
  led_result : Nat
  btn_result : Nat
  canfd_status : Nat
  deriving DecidableEq, Repr

/-- Embedding of the initialization sequence of `main` (lines 131-182):
each checked step's status is passed to `handle_error`; a halt there stops
execution before the loop. The `Cy_SysInt_Init` status is discarded, as in
the source. Returns whether the dispatch loop is reached and the trace. -/
def main_init (env : InitEnv) : Bool × List Ev :=
  let t1 := handle_error env.cybsp_result
  if Ev.haltCall ∈ t1 then (false, t1) else
  let t2 := handle_error env.retarget_result
  if Ev.haltCall ∈ t2 then (false, t1 ++ t2) else
  let banner := [Ev.logStartup USE_CANFD_NODE]
  let t3 := handle_error env.led_result
  if Ev.haltCall ∈ t3 then (false, t1 ++ t2 ++ banner ++ t3) else
  let t4 := handle_error env.btn_result
  if Ev.haltCall ∈ t4 then (false, t1 ++ t2 ++ banner ++ t3 ++ t4) else
  let t5 := handle_error env.canfd_status
  if Ev.haltCall ∈ t5 then (false, t1 ++ t2 ++ banner ++ t3 ++ t4 ++ t5) else
  (true, t1 ++ t2 ++ banner ++ t3 ++ t4 ++ t5)

/-- Embedding of `main`: run the initialization sequence; if it completes,
set the template identifier slot to `USE_CANFD_NODE`
(`CANFD_T0RegisterBuffer_0.id = USE_CANFD_NODE;`, line 182) and enter the
dispatch loop with `gpio_intr_flag` at its initial value `false`. -/
def main_run (env : InitEnv) (tmpl : TxTemplate) (inputs : List IterIn) :
    List Ev :=
  let ini := main_init env
  if ini.1 then
    let tmpl1 : TxTemplate := ⟨USE_CANFD_NODE⟩
    ini.2 ++ (loop_run tmpl1 false inputs).2.2
  else ini.2

/-- True when every transmit submission in the trace carries identifier
`ident`, channel `ch` and buffer index `bi`. -/
def transmitsCarry (ident ch bi : Nat) (t : List Ev) : Bool :=
  t.all fun e =>
    match e with
    | Ev.transmitCall i c b => i == ident && c == ch && b == bi
    | _ => true

/-- The values written to `gpio_intr_flag` by a trace, in order. -/
def flagWrites (t : List Ev) : List Bool :=
  t.filterMap fun e =>
    match e with
    | Ev.writeFlag b => some b
    | _ => none

/-- The number of transmit submissions in a trace. -/
def countTransmits (t : List Ev) : Nat :=
  (t.filter fun e =>
    match e with
    | Ev.transmitCall _ _ _ => true
    | _ => false).length

/-- A concrete inbound data-frame record used to instantiate theorems:
identifier 3, data frame, dlc 4, data area byte `i + 1` at offset `i`. -/
def rxSample : RxBuffer :=
  ⟨⟨3, CY_CANFD_RTR_DATA_FRAME⟩, ⟨4⟩, fun i => i + 1⟩

/-- A concrete inbound remote-frame record: identifier 5, rtr marking a
remote frame, dlc 2. -/
def rxRemoteSample : RxBuffer :=
  ⟨⟨5, CY_CANFD_RTR_REMOTE_FRAME⟩, ⟨2⟩, fun i => i⟩

/-- A concrete initial content for the uninitialized local buffer. -/
def zeroStack : Nat → Nat := fun _ => 0

/-- Helper: `transmitsCarry` distributes over trace concatenation. -/
theorem transmitsCarry_append (i c b : Nat) (s t : List Ev) :
    transmitsCarry i c b (s ++ t) = (transmitsCarry i c b s && transmitsCarry i c b t) :=
  List.all_append

/-- Helper: an error-handler trace contains no transmit submission. -/
theorem transmitsCarry_handle_error (i c b s : Nat) :
    transmitsCarry i c b (handle_error s) = true := by
  by_cases h : s = CY_RSLT_SUCCESS <;> simp [handle_error, h, transmitsCarry]

/-- Helper: the flag writes of an error-handler trace are empty. -/
theorem flagWrites_handle_error (s : Nat) : flagWrites (handle_error s) = [] := by
  by_cases h : s = CY_RSLT_SUCCESS <;> simp [handle_error, h, flagWrites]

/-- C7: handle_error halts (executes the assert) exactly when the status
differs from CY_RSLT_SUCCESS, and on CY_RSLT_SUCCESS it returns with an
empty effect trace. -/
theorem handle_error_halts_iff (status : Nat) :
    (handle_error status = [Ev.haltCall] ↔ status ≠ CY_RSLT_SUCCESS) ∧
    handle_error CY_RSLT_SUCCESS = [] := by
  refine ⟨?_, by simp [handle_error]⟩
  by_cases h : status = CY_RSLT_SUCCESS <;> simp [handle_error, h]

/-- C10: the observable trace of canfd_rx_callback does not depend on the
msg_buf_fifo_num argument. -/
theorem canfd_rx_callback_fifo_independent (msg_valid : Bool) (n1 n2 : Nat)
    (buf : RxBuffer) (stack : Nat → Nat) :
    canfd_rx_callback msg_valid n1 buf stack =
      canfd_rx_callback msg_valid n2 buf stack := rfl

/-- C5: when msg_valid is false, or the record's rtr field does not mark a
data frame, canfd_rx_callback emits no event: no LED toggle and no log
output. -/
theorem canfd_rx_callback_ignored (msg_valid : Bool) (n : Nat) (buf : RxBuffer)
    (stack : Nat → Nat)
    (h : msg_valid = false ∨ buf.r0_f.rtr ≠ CY_CANFD_RTR_DATA_FRAME) :
    canfd_rx_callback msg_valid n buf stack = [] := by
  rcases h with h | h
  · simp [canfd_rx_callback, h]
  · cases msg_valid with
    | false => simp [canfd_rx_callback]
    | true => simp [canfd_rx_callback, Ne.symm h]

/-- Witness for C5 at a concrete invalid reception. -/
theorem canfd_rx_callback_ignored_witness :
    (false = false ∨ rxSample.r0_f.rtr ≠ CY_CANFD_RTR_DATA_FRAME) ∧
    canfd_rx_callback false 0 rxSample zeroStack = [] :=
  ⟨Or.inl rfl, canfd_rx_callback_ignored false 0 rxSample zeroStack (Or.inl rfl)⟩

/-- C2: inside the documented hardware contract (data length code at most
CANFD_DLC = 8), every memcpy into the local canfd_data_buffer recorded in
the callback's trace copies at most 8 bytes, so the copy stays within the
8-byte array, for every (msg_valid, fifo, record) input. -/
theorem canfd_rx_copy_in_bounds (msg_valid : Bool) (n : Nat) (buf : RxBuffer)
    (stack : Nat → Nat) (hc : buf.r1_f.dlc ≤ CANFD_DLC) :
    copyWithinBounds (canfd_rx_callback msg_valid n buf stack) = true := by
  cases msg_valid with
  | false => simp [canfd_rx_callback, copyWithinBounds]
  | true =>
    by_cases hr : CY_CANFD_RTR_DATA_FRAME = buf.r0_f.rtr
    · simp only [canfd_rx_callback, if_pos rfl, if_pos hr]
      simp [copyWithinBounds, List.all_map, Function.comp, Nat.ble_eq, hc]
    · simp [canfd_rx_callback, hr, copyWithinBounds]

/-- Witness for C2 at a concrete data frame with dlc 4. -/
theorem canfd_rx_copy_in_bounds_witness :
    rxSample.r1_f.dlc ≤ CANFD_DLC ∧
    copyWithinBounds (canfd_rx_callback true 0 rxSample zeroStack) = true :=
  ⟨by decide, canfd_rx_copy_in_bounds true 0 rxSample zeroStack (by decide)⟩

/-- C3: for a valid data frame of data length code L at most 8, the
callback's trace is exactly: LED toggle, header log of (L, identifier),
the L-byte copy, then the first L bytes of the record's data area logged
in order with identical values. -/
theorem canfd_rx_roundtrip (n : Nat) (buf : RxBuffer) (stack : Nat → Nat)
    (hr : buf.r0_f.rtr = CY_CANFD_RTR_DATA_FRAME) (hL : buf.r1_f.dlc ≤ CANFD_DLC) :
    canfd_rx_callback true n buf stack =
      Ev.toggleLED ::
        Ev.logRxHeader buf.r1_f.dlc buf.r0_f.id ::
          Ev.copyToLocal buf.r1_f.dlc ::
            ((List.range buf.r1_f.dlc).map fun i => Ev.logRxByte (buf.data_area_f i)) := by
  simp only [canfd_rx_callback, if_pos rfl, if_pos hr.symm]
  refine congrArg _ (congrArg _ (congrArg _ ?_))
  apply List.map_congr_left
  intro i hi
  simp [memcpy, List.mem_range.mp hi]

/-- Witness for C3 at a concrete data frame: dlc 4, identifier 3, data
bytes 1, 2, 3, 4. -/
theorem canfd_rx_roundtrip_witness :
    rxSample.r0_f.rtr = CY_CANFD_RTR_DATA_FRAME ∧
    rxSample.r1_f.dlc ≤ CANFD_DLC ∧
    canfd_rx_callback true 0 rxSample zeroStack =
      [Ev.toggleLED, Ev.logRxHeader 4 3, Ev.copyToLocal 4,
       Ev.logRxByte 1, Ev.logRxByte 2, Ev.logRxByte 3, Ev.logRxByte 4] :=
  ⟨rfl, by decide, by
    rw [canfd_rx_roundtrip 0 rxSample zeroStack rfl (by decide)]
    rfl⟩

/-- C1: in any loop iteration that observes gpio_intr_flag true, the trace
is exactly one transmit submission, then the outcome log (Sent on success
status, SendFailed otherwise), then the write of false to the flag, in
that order; the transmit count is one and the flag ends false whatever the
transmit status. -/
theorem loop_pending_send_once (tmpl : TxTemplate) (tx_status : Nat) :
    loop_iteration tmpl true tx_status =
      (tmpl, false,
        [Ev.transmitCall tmpl.id CANFD_HW_CHANNEL CANFD_BUFFER_INDEX,
         if CY_CANFD_SUCCESS = tx_status then Ev.logSent USE_CANFD_NODE
           else Ev.logSendFailed USE_CANFD_NODE,
         Ev.writeFlag false]) ∧
    countTransmits (loop_iteration tmpl true tx_status).2.2 = 1 ∧
    (loop_iteration tmpl true tx_status).2.1 = false := by
  refine ⟨rfl, ?_, rfl⟩
  by_cases h : CY_CANFD_SUCCESS = tx_status <;>
    simp [loop_iteration, countTransmits, h]

/-- C4: when the transmit status is a failure, the iteration logs
SendFailed, never calls handle_error (no halt event), makes exactly one
transmit attempt (no retry), leaves the flag false, and the loop goes on
to process the remaining iterations. -/
theorem loop_send_failed_not_escalated (tmpl : TxTemplate) (tx_status : Nat)
    (rest : List IterIn) (hs : tx_status ≠ CY_CANFD_SUCCESS) :
    (loop_iteration tmpl true tx_status).2.2 =
      [Ev.transmitCall tmpl.id CANFD_HW_CHANNEL CANFD_BUFFER_INDEX,
       Ev.logSendFailed USE_CANFD_NODE, Ev.writeFlag false] ∧
    Ev.haltCall ∉ (loop_iteration tmpl true tx_status).2.2 ∧
    countTransmits (loop_iteration tmpl true tx_status).2.2 = 1 ∧
    (loop_iteration tmpl true tx_status).2.1 = false ∧
    (loop_run tmpl true (⟨false, tx_status⟩ :: rest)).2.2 =
      (loop_iteration tmpl true tx_status).2.2 ++ (loop_run tmpl false rest).2.2 := by
  have h : ¬ (CY_CANFD_SUCCESS = tx_status) := fun he => hs he.symm
  refine ⟨?_, ?_, ?_, rfl, ?_⟩
  · simp [loop_iteration, h]
  · simp [loop_iteration, h]
  · simp [loop_iteration, countTransmits, h]
  · simp [loop_run, applyFlagWrites, loop_iteration, h]

/-- Witness for C4 at transmit status 5 on the node template. -/
theorem loop_send_failed_not_escalated_witness :
    (5 : Nat) ≠ CY_CANFD_SUCCESS ∧
    (loop_iteration ⟨1⟩ true 5).2.2 =
      [Ev.transmitCall 1 CANFD_HW_CHANNEL CANFD_BUFFER_INDEX,
       Ev.logSendFailed USE_CANFD_NODE, Ev.writeFlag false] ∧
    Ev.haltCall ∉ (loop_iteration ⟨1⟩ true 5).2.2 ∧
    (loop_iteration ⟨1⟩ true 5).2.1 = false :=
  ⟨by decide,
    (loop_send_failed_not_escalated ⟨1⟩ 5 [] (by decide)).1,
    (loop_send_failed_not_escalated ⟨1⟩ 5 [] (by decide)).2.1,
    (loop_send_failed_not_escalated ⟨1⟩ 5 [] (by decide)).2.2.2.1⟩

/-- Helper: a loop iteration never changes the template. -/
theorem loop_iteration_template (tmpl : TxTemplate) (flag : Bool) (s : Nat) :
    (loop_iteration tmpl flag s).1 = tmpl := by
  cases flag <;> rfl

/-- Helper: every transmit submission the dispatch loop emits carries the
current template identifier, CANFD_HW_CHANNEL and CANFD_BUFFER_INDEX. -/
theorem loop_run_transmits (tmpl : TxTemplate) (flag : Bool) (inputs : List IterIn) :
    transmitsCarry tmpl.id CANFD_HW_CHANNEL CANFD_BUFFER_INDEX
      (loop_run tmpl flag inputs).2.2 = true := by
  induction inputs generalizing flag with
  | nil => rfl
  | cons inp rest ih =>
    have hstep : (loop_iteration tmpl (applyFlagWrites flag
        (if inp.isr_fired then gpio_interrupt_handler () 0 else [])) inp.tx_status).1
        = tmpl := loop_iteration_template ..
    simp only [loop_run, hstep, transmitsCarry_append, Bool.and_eq_true]
    refine ⟨⟨?_, ?_⟩, ?_⟩
    · by_cases hf : inp.isr_fired <;>
        simp [hf, gpio_interrupt_handler, transmitsCarry]
    · by_cases hp : applyFlagWrites flag
          (if inp.isr_fired then gpio_interrupt_handler () 0 else []) = true
      · rw [hp]
        by_cases hs : CY_CANFD_SUCCESS = inp.tx_status <;>
          simp [loop_iteration, transmitsCarry, hs]
      · rw [Bool.not_eq_true] at hp
        rw [hp]
        simp [loop_iteration, transmitsCarry]
    · exact ih _

/-- Helper: the initialization trace contains no transmit submission. -/
theorem main_init_no_transmit (env : InitEnv) (i c b : Nat) :
    transmitsCarry i c b (main_init env).2 = true := by
  by_cases h1 : env.cybsp_result = CY_RSLT_SUCCESS <;>
  by_cases h2 : env.retarget_result = CY_RSLT_SUCCESS <;>
  by_cases h3 : env.led_result = CY_RSLT_SUCCESS <;>
  by_cases h4 : env.btn_result = CY_RSLT_SUCCESS <;>
  by_cases h5 : env.canfd_status = CY_RSLT_SUCCESS <;>
  simp [main_init, handle_error, h1, h2, h3, h4, h5, transmitsCarry]

/-- C8: in any run of main, after the template identifier slot is
overwritten with USE_CANFD_NODE, every transmit submission in the whole
trace carries identifier USE_CANFD_NODE, channel CANFD_HW_CHANNEL and
buffer index CANFD_BUFFER_INDEX, whatever the template held before. -/
theorem main_run_transmits_node_id (env : InitEnv) (tmpl : TxTemplate)
    (inputs : List IterIn) :
    transmitsCarry USE_CANFD_NODE CANFD_HW_CHANNEL CANFD_BUFFER_INDEX
      (main_run env tmpl inputs) = true := by
  unfold main_run
  by_cases h : (main_init env).1 <;> simp only [h, if_pos, if_neg, Bool.false_eq_true]
  · rw [transmitsCarry_append, Bool.and_eq_true]
    exact ⟨main_init_no_transmit env .., loop_run_transmits ⟨USE_CANFD_NODE⟩ false inputs⟩
  · exact main_init_no_transmit env ..

/-- Helper: the receive callback writes nothing to the shared flag. -/
theorem flagWrites_canfd_rx_callback (v : Bool) (n : Nat) (buf : RxBuffer)
    (stack : Nat → Nat) : flagWrites (canfd_rx_callback v n buf stack) = [] := by
  cases v with
  | false => simp [canfd_rx_callback, flagWrites]
  | true =>
    by_cases hr : CY_CANFD_RTR_DATA_FRAME = buf.r0_f.rtr
    · simp only [canfd_rx_callback, if_pos rfl, if_pos hr]
      simp [flagWrites, List.filterMap_eq_nil_iff]
    · simp [canfd_rx_callback, hr, flagWrites]

/-- C9: single-writer discipline on gpio_intr_flag. The button handler's
whole effect is the one write of true; an acting loop iteration's only
flag write is the one write of false and an idle iteration writes nothing;
the receive callback, the CAN-FD interrupt forwarder, the error handler
and the initialization sequence write the flag not at all. -/
theorem flag_single_writer :
    (∀ a e, gpio_interrupt_handler a e = [Ev.writeFlag true]) ∧
    (∀ tmpl s, flagWrites (loop_iteration tmpl true s).2.2 = [false]) ∧
    (∀ tmpl s, flagWrites (loop_iteration tmpl false s).2.2 = []) ∧
    (∀ v n buf stack, flagWrites (canfd_rx_callback v n buf stack) = []) ∧
    (∀ arrived stack, flagWrites (isr_canfd arrived stack) = []) ∧
    (∀ s, flagWrites (handle_error s) = []) ∧
    (∀ env, flagWrites (main_init env).2 = []) := by
  refine ⟨fun a e => rfl, ?_, fun tmpl s => rfl,
    flagWrites_canfd_rx_callback, ?_, flagWrites_handle_error, ?_⟩
  · intro tmpl s
    by_cases hs : CY_CANFD_SUCCESS = s <;>
      simp [loop_iteration, flagWrites, hs]
  · intro arrived stack
    cases arrived with
    | none => rfl
    | some t => exact flagWrites_canfd_rx_callback t.1 t.2.1 t.2.2 stack
  · intro env
    by_cases h1 : env.cybsp_result = CY_RSLT_SUCCESS <;>
    by_cases h2 : env.retarget_result = CY_RSLT_SUCCESS <;>
    by_cases h3 : env.led_result = CY_RSLT_SUCCESS <;>
    by_cases h4 : env.btn_result = CY_RSLT_SUCCESS <;>
    by_cases h5 : env.canfd_status = CY_RSLT_SUCCESS <;>
    simp [main_init, handle_error, h1, h2, h3, h4, h5, flagWrites]

/-- Helper: the dispatch loop is entered exactly when the five checked
initialization statuses all succeed, and a halted initialization leaves
the halt event in the trace. -/
theorem main_init_entered_iff (env : InitEnv) :
    ((main_init env).1 = true ↔
      (env.cybsp_result = CY_RSLT_SUCCESS ∧ env.retarget_result = CY_RSLT_SUCCESS ∧
       env.led_result = CY_RSLT_SUCCESS ∧ env.btn_result = CY_RSLT_SUCCESS ∧
       env.canfd_status = CY_RSLT_SUCCESS)) ∧
    ((main_init env).1 = false → Ev.haltCall ∈ (main_init env).2) := by
  by_cases h1 : env.cybsp_result = CY_RSLT_SUCCESS <;>
  by_cases h2 : env.retarget_result = CY_RSLT_SUCCESS <;>
  by_cases h3 : env.led_result = CY_RSLT_SUCCESS <;>
  by_cases h4 : env.btn_result = CY_RSLT_SUCCESS <;>
  by_cases h5 : env.canfd_status = CY_RSLT_SUCCESS <;>
  simp [main_init, handle_error, h1, h2, h3, h4, h5]

/-- Counterexample to C6 as stated: a failing status from the
interrupt-registration step Cy_SysInt_Init, whose return value the source
discards with a (void) cast, does not halt: the dispatch loop is still
entered and no halt event occurs. -/
theorem init_sysint_discarded_counterexample :
    (1 : Nat) ≠ CY_RSLT_SUCCESS ∧
    (main_init ⟨CY_RSLT_SUCCESS, CY_RSLT_SUCCESS, 1, CY_RSLT_SUCCESS,
        CY_RSLT_SUCCESS, CY_CANFD_SUCCESS⟩).1 = true ∧
    Ev.haltCall ∉ (main_init ⟨CY_RSLT_SUCCESS, CY_RSLT_SUCCESS, 1, CY_RSLT_SUCCESS,
        CY_RSLT_SUCCESS, CY_CANFD_SUCCESS⟩).2 := by decide

/-- C6 amended: any failure status from a checked initialization step
(board bring-up, log output init, LED GPIO init, button GPIO init, CAN-FD
controller init) halts the system before the dispatch loop is entered;
the interrupt-registration status is discarded and is not covered. -/
theorem init_failure_halts_checked (env : InitEnv)
    (h : env.cybsp_result ≠ CY_RSLT_SUCCESS ∨ env.retarget_result ≠ CY_RSLT_SUCCESS ∨
         env.led_result ≠ CY_RSLT_SUCCESS ∨ env.btn_result ≠ CY_RSLT_SUCCESS ∨
         env.canfd_status ≠ CY_RSLT_SUCCESS) :
    (main_init env).1 = false ∧ Ev.haltCall ∈ (main_init env).2 := by
  have hiff := (main_init_entered_iff env).1
  have hmem := (main_init_entered_iff env).2
  have hfalse : (main_init env).1 = false := by
    cases hb : (main_init env).1 with
    | false => rfl
    | true =>
      rcases hiff.mp hb with ⟨a1, a2, a3, a4, a5⟩
      rcases h with h | h | h | h | h <;> contradiction
  exact ⟨hfalse, hmem hfalse⟩

/-- Witness for the amended C6 at a failing board bring-up status. -/
theorem init_failure_halts_checked_witness :
    (⟨1, 0, 0, 0, 0, 0⟩ : InitEnv).cybsp_result ≠ CY_RSLT_SUCCESS ∧
    ((main_init ⟨1, 0, 0, 0, 0, 0⟩).1 = false ∧
      Ev.haltCall ∈ (main_init ⟨1, 0, 0, 0, 0, 0⟩).2) :=
  ⟨by decide, init_failure_halts_checked ⟨1, 0, 0, 0, 0, 0⟩ (Or.inl (by decide))⟩

end CanfdNode
